import Mathlib

/-!
Verification of the deployment-verification scripts of the rcvp repository.

The repository's executable logic consists of two Node scripts:

* `scripts/deploy-check` (the file registering `checkEnvironment`,
  `checkRequiredFiles`, `checkDependencies`, `checkBuildOutput` and `main`),
  modelled here in namespace `Deploy`;
* `scripts/health-check.js`, modelled here in namespace `Health`.

Both scripts only inspect a filesystem tree (existence checks, directory
listing, file sizes), print diagnostic lines via console.log / console.warn /
console.error, and terminate the process with exit code 0 or 1.  We embed the
filesystem as a finite tree of named entries, a run of a script as a pure
function from that tree (plus, for deploy-check, the process environment and
the parsed package.json) to the list of printed messages and the exit code.
-/

/-- A node of the inspected filesystem: a regular file with a byte size, or a
directory with a list of named immediate entries (the order is the order
`fs.readdirSync` reports). -/
inductive FSNode where
  | file (size : Nat)
  | dir (entries : List (String × FSNode))
deriving Repr

/-- A path, as the list of its components (the JS code joins components with
`path.join`, i.e. with the separator). -/
abbrev FSPath := List String

/-- Look up a name among the immediate entries of a directory (real
directories have distinct entry names; lookup takes the first match). -/
def findEntry : List (String × FSNode) → String → Option FSNode
  | [], _ => none
  | (k, v) :: rest, name => if k = name then some v else findEntry rest name

/-- Resolve a path from a node.  Descending into a regular file fails, which
is exactly when `fs.existsSync` returns false with ENOTDIR on the real
filesystem (no symlinks in the model). -/
def resolve : FSNode → FSPath → Option FSNode
  | n, [] => some n
  | FSNode.file _, _ :: _ => none
  | FSNode.dir entries, c :: cs =>
      match findEntry entries c with
      | some n => resolve n cs
      | none => none

/-- Whether a node is a directory. -/
def FSNode.isDirNode : FSNode → Bool
  | FSNode.file _ => false
  | FSNode.dir _ => true

/-- `fs.existsSync` on a path written without a trailing slash. -/
def existsSync (root : FSNode) (p : FSPath) : Bool :=
  (resolve root p).isSome

/-- `fs.existsSync` on a path that may carry a trailing slash: with a
trailing slash the OS additionally requires the target to be a directory. -/
def existsSyncSlash (root : FSNode) (p : FSPath) (needDir : Bool) : Bool :=
  match resolve root p with
  | some n => !needDir || n.isDirNode
  | none => false

/-- A printed diagnostic line, tagged with the console channel used
(console.log / console.warn / console.error). -/
inductive Msg where
  | log (s : String)
  | warn (s : String)
  | error (s : String)
deriving Repr, DecidableEq

/-- Whether a message is a fatal diagnostic, i.e. printed via console.error. -/
def Msg.isError : Msg → Bool
  | Msg.error _ => true
  | _ => false

/-- Number of fatal diagnostics in an output. -/
def errorCount (msgs : List Msg) : Nat :=
  msgs.countP Msg.isError

/-- The result of one run of a script: everything it printed, in order, and
the process exit code. -/
structure RunResult where
  output : List Msg
  exitCode : Nat
deriving Repr, DecidableEq

/-- The sum of the byte sizes of the regular files among the immediate
entries of a directory listing: the `totalSize` accumulated by the
`for (const file of files) ... if (stats.isFile()) totalSize += stats.size`
loop of both scripts.  Directory entries contribute nothing and are never
recursed into. -/
def sumFileSizes : List (String × FSNode) → Nat
  | [] => 0
  | (_, FSNode.file sz) :: rest => sz + sumFileSizes rest
  | (_, FSNode.dir _) :: rest => sumFileSizes rest

/-- The number of regular files among the immediate entries: the `fileCount`
accumulated by the same loop of the deploy-check script. -/
def countFiles : List (String × FSNode) → Nat
  | [] => 0
  | (_, FSNode.file _) :: rest => 1 + countFiles rest
  | (_, FSNode.dir _) :: rest => countFiles rest

/-- Model of JavaScript Math.round(x / 1024 / 1024) on a byte count:
round-half-up to whole megabytes. -/
def jsRoundMB (bytes : Nat) : Nat :=
  (bytes + 524288) / 1048576

/-- Model of (bytes / 1024 / 1024).toFixed(2): megabytes with two decimals,
rounded to the nearest hundredth. -/
def toFixed2MB (bytes : Nat) : String :=
  let h := (bytes * 100 + 524288) / 1048576
  toString (h / 100) ++ "." ++ (if h % 100 < 10 then "0" else "") ++ toString (h % 100)

/-- The part of the process state, other than the inspected tree, that the
deploy-check script reads and prints: process.version and
process.memoryUsage().heapUsed. -/
structure Env where
  nodeVersion : String
  heapUsed : Nat
deriving Repr, DecidableEq

/-- The fields of the parsed package.json the deploy-check script consults.
Dependency maps are association lists of name to version string; a missing
key is `none` (the code defaults it with `|| {}`). -/
structure PackageJson where
  devDependencies : Option (List (String × String))
  dependencies : Option (List (String × String))
deriving Repr, DecidableEq

/-- Version lookup in a dependency map. -/
def lookupDep : List (String × String) → String → Option String
  | [], _ => none
  | (k, v) :: rest, d => if k = d then some v else lookupDep rest d

/-- JS truthiness of `deps[dep]` for a version entry: undefined and the
empty string are falsy, every other string is truthy. -/
def depTruthy : Option String → Bool
  | none => false
  | some v => v ≠ ""

/-- Character-list prefix test: the behavior of String.startsWith (spelled
out on the character lists so that it evaluates inside the kernel). -/
def charsStartWith : List Char → List Char → Bool
  | _, [] => true
  | [], _ :: _ => false
  | c :: cs, d :: ds => c == d && charsStartWith cs ds

namespace Deploy

/-- config.requiredFiles of the deploy-check script. -/
def requiredFiles : List FSPath :=
  [["docs", ".vuepress", "config.js"],
   ["docs", "README.md"],
   ["package.json"],
   ["pnpm-lock.yaml"]]

/-- config.buildOutput of the deploy-check script. -/
def buildOutput : FSPath := ["docs", ".vuepress", "dist"]

/-- config.minBuildSize: 1KB minimum. -/
def minBuildSize : Nat := 1024

/-- config.maxBuildSize: 50MB maximum. -/
def maxBuildSize : Nat := 50 * 1024 * 1024

/-- Render a component path the way the script's config literals spell it. -/
def pathStr (p : FSPath) : String := String.intercalate "/" p

/-- checkEnvironment: prints the Node version and memory usage, warns when
the version does not start with v20, never fails. -/
def checkEnvironment (env : Env) : List Msg :=
  [Msg.log "🔍 Checking environment...",
   Msg.log ("Node.js version: " ++ env.nodeVersion)]
  ++ (if charsStartWith env.nodeVersion.data "v20".data then []
      else [Msg.warn "⚠️  Node.js 20+ recommended for optimal performance"])
  ++ [Msg.log ("Memory usage: " ++ toString (jsRoundMB env.heapUsed) ++ "MB"),
      Msg.log "✅ Environment check passed"]

/-- The loop of checkRequiredFiles: walk the list in order; on the first
path that does not exist, print the error and exit (fatal = true).  The
third component records which paths had their existence checked, in order. -/
def checkRequiredFilesAux (root : FSNode) : List FSPath → List Msg × Bool × List FSPath
  | [] => ([Msg.log "✅ All required files present"], false, [])
  | f :: fs =>
      if existsSync root f then
        let r := checkRequiredFilesAux root fs
        (Msg.log ("✅ Found: " ++ pathStr f) :: r.1, r.2.1, f :: r.2.2)
      else
        ([Msg.error ("❌ Required file missing: " ++ pathStr f)], true, [f])

/-- checkRequiredFiles of the deploy-check script. -/
def checkRequiredFiles (root : FSNode) : List Msg × Bool × List FSPath :=
  let r := checkRequiredFilesAux root requiredFiles
  (Msg.log "📁 Checking required files..." :: r.1, r.2.1, r.2.2)

/-- requiredDeps of checkDependencies. -/
def requiredDeps : List String := ["vuepress", "@vuepress/bundler-vite", "vue"]

/-- The loop of checkDependencies: for each required dependency look it up in
the devDependencies map; a falsy entry (absent or empty version) prints the
error and exits. -/
def checkDependenciesAux (deps : List (String × String)) : List String → List Msg × Bool
  | [] => ([Msg.log "✅ Dependencies check passed"], false)
  | d :: rest =>
      if depTruthy (lookupDep deps d) then
        let r := checkDependenciesAux deps rest
        (Msg.log ("✅ Found: " ++ d ++ "@" ++ (lookupDep deps d).getD "") :: r.1, r.2)
      else
        ([Msg.error ("❌ Required dependency missing: " ++ d)], true)

/-- checkDependencies of the deploy-check script.  `none` stands for a
package.json that could not be read or parsed (the catch branch). -/
def checkDependencies (pkg : Option PackageJson) : List Msg × Bool :=
  match pkg with
  | none => ([Msg.log "📦 Checking dependencies...",
              Msg.error "❌ Error reading package.json: parse error"], true)
  | some p =>
      let deps := p.devDependencies.getD []
      let r := checkDependenciesAux deps requiredDeps
      (Msg.log "📦 Checking dependencies..." :: r.1, r.2)

/-- The essentialBuildFiles literal of checkBuildOutput. -/
def essentialBuildFiles : List String := ["index.html", "assets"]

/-- The essential-files loop of checkBuildOutput: exit on the first entry
missing under the build output directory. -/
def checkEssentialAux (root : FSNode) : List String → List Msg × Bool
  | [] => ([], false)
  | f :: fs =>
      if existsSync root (buildOutput ++ [f]) then checkEssentialAux root fs
      else ([Msg.error ("❌ Essential build file missing: " ++ f)], true)

/-- Outcome of checkBuildOutput: normal return, process.exit(1), or a thrown
exception (readdirSync on a non-directory), which main's catch turns into a
fatal diagnostic. -/
inductive BuildOutcome where
  | ok
  | exit1
  | thrown
deriving Repr, DecidableEq

/-- checkBuildOutput of the deploy-check script: existence of the output
directory, shallow size statistics, minimum (fatal) and maximum (warning)
size thresholds, then the essential-entries loop. -/
def checkBuildOutput (root : FSNode) : List Msg × BuildOutcome :=
  let hdr := Msg.log "🏗️  Checking build output..."
  match resolve root buildOutput with
  | none => ([hdr, Msg.error ("❌ Build output not found: " ++ pathStr buildOutput)],
             BuildOutcome.exit1)
  | some (FSNode.file _) => ([hdr], BuildOutcome.thrown)
  | some (FSNode.dir entries) =>
      let totalSize := sumFileSizes entries
      let fileCount := countFiles entries
      let statMsgs := [Msg.log "📊 Build statistics:",
                       Msg.log ("   Files: " ++ toString fileCount),
                       Msg.log ("   Size: " ++ toFixed2MB totalSize ++ " MB")]
      if totalSize < minBuildSize then
        (hdr :: statMsgs ++ [Msg.error ("❌ Build output too small: " ++ toString totalSize ++ " bytes")],
         BuildOutcome.exit1)
      else
        let warnMsgs := if totalSize > maxBuildSize then
            [Msg.warn ("⚠️  Build output very large: " ++ toFixed2MB totalSize ++ " MB")]
          else []
        let e := checkEssentialAux root essentialBuildFiles
        if e.2 then (hdr :: statMsgs ++ warnMsgs ++ e.1, BuildOutcome.exit1)
        else (hdr :: statMsgs ++ warnMsgs ++ e.1 ++ [Msg.log "✅ Build output verified"],
              BuildOutcome.ok)

/-- main of the deploy-check script: the four checks in their fixed order,
each fatal failure ending the run with exit code 1 (checkEnvironment cannot
fail); a thrown exception is caught and reported by the catch branch. -/
def main (env : Env) (root : FSNode) (pkg : Option PackageJson) : RunResult :=
  let start := [Msg.log "🚀 Starting deployment checks...\n"]
  let envOut := checkEnvironment env
  let req := checkRequiredFiles root
  if req.2.1 then
    ⟨start ++ envOut ++ [Msg.log ""] ++ req.1, 1⟩
  else
    let dep := checkDependencies pkg
    if dep.2 then
      ⟨start ++ envOut ++ [Msg.log ""] ++ req.1 ++ [Msg.log ""] ++ dep.1, 1⟩
    else
      let build := checkBuildOutput root
      let sofar := start ++ envOut ++ [Msg.log ""] ++ req.1 ++ [Msg.log ""] ++ dep.1
                   ++ [Msg.log ""] ++ build.1
      match build.2 with
      | BuildOutcome.exit1 => ⟨sofar, 1⟩
      | BuildOutcome.thrown =>
          ⟨sofar ++ [Msg.error "❌ Deployment check failed: ENOTDIR: not a directory, scandir"], 1⟩
      | BuildOutcome.ok =>
          ⟨sofar ++ [Msg.log "", Msg.log "🎉 All checks passed! Deployment ready."], 0⟩

end Deploy

namespace Health

/-- distPath of the health-check script. -/
def distPath : FSPath := ["docs", ".vuepress", "dist"]

/-- The essentialFiles literal of the health-check script: the string as
written (and printed in diagnostics), its path components under distPath,
and whether the trailing slash makes existence require a directory. -/
def essentialFiles : List (String × FSPath × Bool) :=
  [("index.html", ["index.html"], false),
   ("assets/", ["assets"], true),
   (".vuepress/dist/", [".vuepress", "dist"], true)]

/-- The essential-files loop of the health-check script: exit on the first
entry missing under distPath. -/
def checkEssentialAux (root : FSNode) : List (String × FSPath × Bool) → List Msg × Bool
  | [] => ([], false)
  | (orig, comps, needDir) :: rest =>
      if existsSyncSlash root (distPath ++ comps) needDir then checkEssentialAux root rest
      else ([Msg.error ("❌ Essential file missing: " ++ orig)], true)

/-- checkBuildOutput of the health-check script (the whole script): dist
existence, essential files, then shallow statistics where the reported file
count is the length of the raw directory listing and the undersized-total
condition only warns. -/
def checkBuildOutput (root : FSNode) : RunResult :=
  let hdr := [Msg.log "🔍 Checking build output..."]
  if !(existsSync root distPath) then
    ⟨hdr ++ [Msg.error "❌ Build output directory does not exist"], 1⟩
  else
    let e := checkEssentialAux root essentialFiles
    if e.2 then ⟨hdr ++ e.1, 1⟩
    else
      match resolve root distPath with
      | some (FSNode.dir entries) =>
          let totalSize := sumFileSizes entries
          ⟨hdr ++ e.1
            ++ [Msg.log "✅ Build output verified",
                Msg.log ("📁 Total files: " ++ toString entries.length),
                Msg.log ("📦 Total size: " ++ toFixed2MB totalSize ++ " MB")]
            ++ (if totalSize < 1024 then
                  [Msg.warn "⚠️  Build output seems too small, might be incomplete"]
                else [])
            ++ [Msg.log "🎉 Health check passed!"], 0⟩
      | _ =>
          ⟨hdr ++ e.1 ++ [Msg.error "ENOTDIR: not a directory, scandir"], 1⟩

end Health

/-! ### Concrete worlds used as witnesses and counterexamples -/

/-- A build-output directory that satisfies every essential-entry list of
both scripts: an index document of the given size, an assets directory and a
nested .vuepress/dist directory. -/
def distHealthy (idxSize : Nat) : FSNode :=
  FSNode.dir [("index.html", FSNode.file idxSize),
              ("assets", FSNode.dir []),
              (".vuepress", FSNode.dir [("dist", FSNode.dir [])])]

/-- A project root containing all four required files and the given
build-output directory at docs/.vuepress/dist. -/
def rootWith (dist : FSNode) : FSNode :=
  FSNode.dir
    [("docs", FSNode.dir
        [(".vuepress", FSNode.dir [("config.js", FSNode.file 100), ("dist", dist)]),
         ("README.md", FSNode.file 50)]),
     ("package.json", FSNode.file 300),
     ("pnpm-lock.yaml", FSNode.file 400)]

/-- A project root whose docs/README.md is absent while the first required
file exists. -/
def rootNoReadme : FSNode :=
  FSNode.dir
    [("docs", FSNode.dir
        [(".vuepress", FSNode.dir [("config.js", FSNode.file 100)])]),
     ("package.json", FSNode.file 300),
     ("pnpm-lock.yaml", FSNode.file 400)]

/-- A build-output directory with index document and assets but without a
nested .vuepress/dist entry. -/
def distNoNested : FSNode :=
  FSNode.dir [("index.html", FSNode.file 2000), ("assets", FSNode.dir [])]

/-- A build-output directory whose single file exceeds the 50MB maximum. -/
def distHuge : FSNode :=
  FSNode.dir [("index.html", FSNode.file 60000000), ("assets", FSNode.dir [])]

/-- A package.json carrying all three required dependencies under
devDependencies. -/
def goodPkg : PackageJson :=
  ⟨some [("vuepress", "2.0.0"), ("@vuepress/bundler-vite", "2.0.0"), ("vue", "3.4.0")],
   none⟩

/-- A package.json listing vuepress only under dependencies, not under
devDependencies. -/
def badPkg : PackageJson :=
  ⟨some [], some [("vuepress", "2.0.0")]⟩

/-- A process environment: Node v20, about 10MB of heap in use. -/
def baseEnv : Env := ⟨"v20.11.0", 10485760⟩

/-- The same Node version with a different heap reading. -/
def altEnv : Env := ⟨"v20.11.0", 0⟩

/-! ### Helper lemmas -/

theorem errorCount_append (a b : List Msg) :
    errorCount (a ++ b) = errorCount a + errorCount b :=
  List.countP_append _ _ _

theorem sumFileSizes_append (a b : List (String × FSNode)) :
    sumFileSizes (a ++ b) = sumFileSizes a + sumFileSizes b := by
  induction a with
  | nil => simp [sumFileSizes]
  | cons e rest ih =>
      obtain ⟨n, node⟩ := e
      cases node <;> simp [sumFileSizes, ih] <;> omega

theorem countFiles_append (a b : List (String × FSNode)) :
    countFiles (a ++ b) = countFiles a + countFiles b := by
  induction a with
  | nil => simp [countFiles]
  | cons e rest ih =>
      obtain ⟨n, node⟩ := e
      cases node <;> simp [countFiles, ih] <;> omega

theorem sumFileSizes_of_no_files (l : List (String × FSNode))
    (h : countFiles l = 0) : sumFileSizes l = 0 := by
  induction l with
  | nil => rfl
  | cons e rest ih =>
      obtain ⟨n, node⟩ := e
      cases node with
      | file sz => simp [countFiles] at h
      | dir es =>
          simp [countFiles] at h
          simpa [sumFileSizes] using ih h

theorem checkEnvironment_errorCount (env : Env) :
    errorCount (Deploy.checkEnvironment env) = 0 := by
  unfold Deploy.checkEnvironment
  split <;> simp [errorCount, List.countP_cons, List.countP_append, Msg.isError]

theorem checkRequiredFilesAux_errorCount (root : FSNode) (l : List FSPath) :
    errorCount (Deploy.checkRequiredFilesAux root l).1 =
      (if (Deploy.checkRequiredFilesAux root l).2.1 then 1 else 0) := by
  induction l with
  | nil => simp [Deploy.checkRequiredFilesAux, errorCount, List.countP_cons, Msg.isError]
  | cons f fs ih =>
      by_cases h : existsSync root f = true
      · simpa [Deploy.checkRequiredFilesAux, h, errorCount, List.countP_cons, Msg.isError] using ih
      · have h2 : existsSync root f = false := by simpa using h
        simp [Deploy.checkRequiredFilesAux, h2, errorCount, List.countP_cons, Msg.isError]

theorem checkRequiredFiles_errorCount (root : FSNode) :
    errorCount (Deploy.checkRequiredFiles root).1 =
      (if (Deploy.checkRequiredFiles root).2.1 then 1 else 0) := by
  unfold Deploy.checkRequiredFiles
  simpa [errorCount, List.countP_cons, Msg.isError] using checkRequiredFilesAux_errorCount root Deploy.requiredFiles

theorem checkDependenciesAux_errorCount (deps : List (String × String)) (l : List String) :
    errorCount (Deploy.checkDependenciesAux deps l).1 =
      (if (Deploy.checkDependenciesAux deps l).2 then 1 else 0) := by
  induction l with
  | nil => simp [Deploy.checkDependenciesAux, errorCount, List.countP_cons, Msg.isError]
  | cons d rest ih =>
      by_cases h : depTruthy (lookupDep deps d) = true
      · simpa [Deploy.checkDependenciesAux, h, errorCount, List.countP_cons, Msg.isError] using ih
      · have h2 : depTruthy (lookupDep deps d) = false := by simpa using h
        simp [Deploy.checkDependenciesAux, h2, errorCount, List.countP_cons, Msg.isError]

theorem checkDependencies_errorCount (pkg : Option PackageJson) :
    errorCount (Deploy.checkDependencies pkg).1 =
      (if (Deploy.checkDependencies pkg).2 then 1 else 0) := by
  cases pkg with
  | none => simp [Deploy.checkDependencies, errorCount, List.countP_cons, Msg.isError]
  | some p =>
      simpa [Deploy.checkDependencies, errorCount, List.countP_cons, Msg.isError] using
        checkDependenciesAux_errorCount (p.devDependencies.getD []) Deploy.requiredDeps

theorem deployEssentialAux_not_fatal_nil (root : FSNode) (l : List String)
    (h : (Deploy.checkEssentialAux root l).2 = false) :
    (Deploy.checkEssentialAux root l).1 = [] := by
  induction l with
  | nil => rfl
  | cons f fs ih =>
      by_cases hf : existsSync root (Deploy.buildOutput ++ [f]) = true
      · rw [Deploy.checkEssentialAux, if_pos hf] at h ⊢; exact ih h
      · have hf2 : existsSync root (Deploy.buildOutput ++ [f]) = false := by simpa using hf
        rw [Deploy.checkEssentialAux, if_neg (by simp [hf2])] at h
        cases h

theorem deployEssentialAux_errorCount (root : FSNode) (l : List String) :
    errorCount (Deploy.checkEssentialAux root l).1 =
      (if (Deploy.checkEssentialAux root l).2 then 1 else 0) := by
  induction l with
  | nil => simp [Deploy.checkEssentialAux, errorCount]
  | cons f fs ih =>
      by_cases hf : existsSync root (Deploy.buildOutput ++ [f]) = true
      · simpa [Deploy.checkEssentialAux, hf] using ih
      · have hf2 : existsSync root (Deploy.buildOutput ++ [f]) = false := by simpa using hf
        simp [Deploy.checkEssentialAux, hf2, errorCount, List.countP_cons, Msg.isError]

theorem checkBuildOutput_errorCount (root : FSNode) :
    errorCount (Deploy.checkBuildOutput root).1 =
      (if (Deploy.checkBuildOutput root).2 = Deploy.BuildOutcome.exit1 then 1 else 0) := by
  unfold Deploy.checkBuildOutput
  cases hres : resolve root Deploy.buildOutput with
  | none => simp [errorCount, List.countP_cons, Msg.isError]
  | some node =>
      cases node with
      | file sz => simp [errorCount, List.countP_cons, Msg.isError]
      | dir entries =>
          by_cases hmin : sumFileSizes entries < Deploy.minBuildSize
          · simp [hmin, errorCount, List.countP_cons, List.countP_append, Msg.isError]
          · have haux := deployEssentialAux_errorCount root Deploy.essentialBuildFiles
            simp only [errorCount] at haux
            by_cases hess : (Deploy.checkEssentialAux root Deploy.essentialBuildFiles).2 = true
            · rw [hess, if_pos rfl] at haux
              by_cases hmax : Deploy.maxBuildSize < sumFileSizes entries
              · simp [hmin, hess, hmax, errorCount, List.countP_cons, List.countP_append,
                      Msg.isError, haux]
              · simp [hmin, hess, hmax, errorCount, List.countP_cons, List.countP_append,
                      Msg.isError, haux]
            · have hess2 : (Deploy.checkEssentialAux root Deploy.essentialBuildFiles).2 = false := by
                simpa using hess
              have hnil := deployEssentialAux_not_fatal_nil root Deploy.essentialBuildFiles hess2
              by_cases hmax : Deploy.maxBuildSize < sumFileSizes entries
              · simp [hmin, hess2, hmax, hnil, errorCount, List.countP_cons, List.countP_append,
                      Msg.isError]
              · simp [hmin, hess2, hmax, hnil, errorCount, List.countP_cons, List.countP_append,
                      Msg.isError]

theorem main_eq_of_req_fatal (env : Env) (root : FSNode) (pkg : Option PackageJson)
    (h : (Deploy.checkRequiredFiles root).2.1 = true) :
    Deploy.main env root pkg =
      ⟨[Msg.log "🚀 Starting deployment checks...\n"] ++ Deploy.checkEnvironment env
        ++ [Msg.log ""] ++ (Deploy.checkRequiredFiles root).1, 1⟩ := by
  simp [Deploy.main, h]

theorem main_eq_of_dep_fatal (env : Env) (root : FSNode) (pkg : Option PackageJson)
    (h1 : (Deploy.checkRequiredFiles root).2.1 = false)
    (h2 : (Deploy.checkDependencies pkg).2 = true) :
    Deploy.main env root pkg =
      ⟨[Msg.log "🚀 Starting deployment checks...\n"] ++ Deploy.checkEnvironment env
        ++ [Msg.log ""] ++ (Deploy.checkRequiredFiles root).1
        ++ [Msg.log ""] ++ (Deploy.checkDependencies pkg).1, 1⟩ := by
  simp [Deploy.main, h1, h2]

theorem main_eq_of_build_exit1 (env : Env) (root : FSNode) (pkg : Option PackageJson)
    (h1 : (Deploy.checkRequiredFiles root).2.1 = false)
    (h2 : (Deploy.checkDependencies pkg).2 = false)
    (h3 : (Deploy.checkBuildOutput root).2 = Deploy.BuildOutcome.exit1) :
    Deploy.main env root pkg =
      ⟨[Msg.log "🚀 Starting deployment checks...\n"] ++ Deploy.checkEnvironment env
        ++ [Msg.log ""] ++ (Deploy.checkRequiredFiles root).1
        ++ [Msg.log ""] ++ (Deploy.checkDependencies pkg).1
        ++ [Msg.log ""] ++ (Deploy.checkBuildOutput root).1, 1⟩ := by
  simp [Deploy.main, h1, h2, h3]

theorem main_eq_of_build_ok (env : Env) (root : FSNode) (pkg : Option PackageJson)
    (h1 : (Deploy.checkRequiredFiles root).2.1 = false)
    (h2 : (Deploy.checkDependencies pkg).2 = false)
    (h3 : (Deploy.checkBuildOutput root).2 = Deploy.BuildOutcome.ok) :
    Deploy.main env root pkg =
      ⟨[Msg.log "🚀 Starting deployment checks...\n"] ++ Deploy.checkEnvironment env
        ++ [Msg.log ""] ++ (Deploy.checkRequiredFiles root).1
        ++ [Msg.log ""] ++ (Deploy.checkDependencies pkg).1
        ++ [Msg.log ""] ++ (Deploy.checkBuildOutput root).1
        ++ [Msg.log "", Msg.log "🎉 All checks passed! Deployment ready."], 0⟩ := by
  simp [Deploy.main, h1, h2, h3]

theorem main_eq_of_build_thrown (env : Env) (root : FSNode) (pkg : Option PackageJson)
    (h1 : (Deploy.checkRequiredFiles root).2.1 = false)
    (h2 : (Deploy.checkDependencies pkg).2 = false)
    (h3 : (Deploy.checkBuildOutput root).2 = Deploy.BuildOutcome.thrown) :
    Deploy.main env root pkg =
      ⟨[Msg.log "🚀 Starting deployment checks...\n"] ++ Deploy.checkEnvironment env
        ++ [Msg.log ""] ++ (Deploy.checkRequiredFiles root).1
        ++ [Msg.log ""] ++ (Deploy.checkDependencies pkg).1
        ++ [Msg.log ""] ++ (Deploy.checkBuildOutput root).1
        ++ [Msg.error "❌ Deployment check failed: ENOTDIR: not a directory, scandir"], 1⟩ := by
  simp [Deploy.main, h1, h2, h3]

theorem checkBuildOutput_eq_of_too_small (root : FSNode) (entries : List (String × FSNode))
    (hres : resolve root Deploy.buildOutput = some (FSNode.dir entries))
    (hmin : sumFileSizes entries < Deploy.minBuildSize) :
    Deploy.checkBuildOutput root =
      ([Msg.log "🏗️  Checking build output...", Msg.log "📊 Build statistics:",
        Msg.log ("   Files: " ++ toString (countFiles entries)),
        Msg.log ("   Size: " ++ toFixed2MB (sumFileSizes entries) ++ " MB"),
        Msg.error ("❌ Build output too small: " ++ toString (sumFileSizes entries) ++ " bytes")],
       Deploy.BuildOutcome.exit1) := by
  simp [Deploy.checkBuildOutput, hres, hmin]

theorem checkBuildOutput_eq_of_ess_fatal (root : FSNode) (entries : List (String × FSNode))
    (hres : resolve root Deploy.buildOutput = some (FSNode.dir entries))
    (hmin : ¬ sumFileSizes entries < Deploy.minBuildSize)
    (hess : (Deploy.checkEssentialAux root Deploy.essentialBuildFiles).2 = true) :
    Deploy.checkBuildOutput root =
      (Msg.log "🏗️  Checking build output..." ::
        ([Msg.log "📊 Build statistics:",
          Msg.log ("   Files: " ++ toString (countFiles entries)),
          Msg.log ("   Size: " ++ toFixed2MB (sumFileSizes entries) ++ " MB")]
         ++ (if Deploy.maxBuildSize < sumFileSizes entries then
               [Msg.warn ("⚠️  Build output very large: " ++ toFixed2MB (sumFileSizes entries) ++ " MB")]
             else [])
         ++ (Deploy.checkEssentialAux root Deploy.essentialBuildFiles).1),
       Deploy.BuildOutcome.exit1) := by
  simp [Deploy.checkBuildOutput, hres, hmin, hess, gt_iff_lt]

theorem checkBuildOutput_eq_of_ok (root : FSNode) (entries : List (String × FSNode))
    (hres : resolve root Deploy.buildOutput = some (FSNode.dir entries))
    (hmin : ¬ sumFileSizes entries < Deploy.minBuildSize)
    (hess : (Deploy.checkEssentialAux root Deploy.essentialBuildFiles).2 = false) :
    Deploy.checkBuildOutput root =
      (Msg.log "🏗️  Checking build output..." ::
        ([Msg.log "📊 Build statistics:",
          Msg.log ("   Files: " ++ toString (countFiles entries)),
          Msg.log ("   Size: " ++ toFixed2MB (sumFileSizes entries) ++ " MB")]
         ++ (if Deploy.maxBuildSize < sumFileSizes entries then
               [Msg.warn ("⚠️  Build output very large: " ++ toFixed2MB (sumFileSizes entries) ++ " MB")]
             else [])
         ++ [Msg.log "✅ Build output verified"]),
       Deploy.BuildOutcome.ok) := by
  have hnil := deployEssentialAux_not_fatal_nil root Deploy.essentialBuildFiles hess
  simp [Deploy.checkBuildOutput, hres, hmin, hess, hnil, gt_iff_lt]

theorem checkRequiredFilesAux_firstMissing (root : FSNode) (fs₁ : List FSPath) (f : FSPath)
    (fs₂ : List FSPath)
    (h₁ : ∀ g ∈ fs₁, existsSync root g = true) (h₂ : existsSync root f = false) :
    Deploy.checkRequiredFilesAux root (fs₁ ++ f :: fs₂) =
      (fs₁.map (fun g => Msg.log ("✅ Found: " ++ Deploy.pathStr g))
         ++ [Msg.error ("❌ Required file missing: " ++ Deploy.pathStr f)],
       true, fs₁ ++ [f]) := by
  induction fs₁ with
  | nil => simp [Deploy.checkRequiredFilesAux, h₂]
  | cons g gs ih =>
      have hg : existsSync root g = true := h₁ g (by simp)
      have ih2 := ih (fun x hx => h₁ x (by simp [hx]))
      simp [Deploy.checkRequiredFilesAux, hg, ih2]

theorem checkDependenciesAux_missing (deps : List (String × String)) (l : List String)
    (d : String) (hd : d ∈ l) (hmiss : depTruthy (lookupDep deps d) = false) :
    (Deploy.checkDependenciesAux deps l).2 = true ∧
      ∃ d2, Msg.error ("❌ Required dependency missing: " ++ d2)
              ∈ (Deploy.checkDependenciesAux deps l).1 := by
  induction l with
  | nil => cases hd
  | cons d0 rest ih =>
      by_cases h0 : depTruthy (lookupDep deps d0) = true
      · have hdrest : d ∈ rest := by
          rcases List.mem_cons.mp hd with h | h
          · rw [← h] at h0; rw [h0] at hmiss; cases hmiss
          · exact h
        have ihr := ih hdrest
        refine ⟨?_, ?_⟩
        · simpa [Deploy.checkDependenciesAux, h0] using ihr.1
        · obtain ⟨d2, hmem⟩ := ihr.2
          exact ⟨d2, by simp [Deploy.checkDependenciesAux, h0, hmem]⟩
      · have h0f : depTruthy (lookupDep deps d0) = false := by simpa using h0
        exact ⟨by simp [Deploy.checkDependenciesAux, h0f],
               ⟨d0, by simp [Deploy.checkDependenciesAux, h0f]⟩⟩

theorem healthEssentialAux_not_fatal_nil (root : FSNode) (l : List (String × FSPath × Bool))
    (h : (Health.checkEssentialAux root l).2 = false) :
    (Health.checkEssentialAux root l).1 = [] := by
  induction l with
  | nil => rfl
  | cons e rest ih =>
      obtain ⟨orig, comps, needDir⟩ := e
      by_cases he : existsSyncSlash root (Health.distPath ++ comps) needDir = true
      · rw [Health.checkEssentialAux, if_pos he] at h ⊢; exact ih h
      · have he2 : existsSyncSlash root (Health.distPath ++ comps) needDir = false := by
          simpa using he
        rw [Health.checkEssentialAux, if_neg (by simp [he2])] at h
        cases h

/-! ### The claims -/

/-- C1, counterexample: a build-output directory whose immediate regular-file
sizes sum to 10 bytes (far below the 1024-byte minimum), yet the health-check
verifier exits with status 0 and prints no fatal diagnostic at all, only a
warning — the undersized total is merely advisory there. -/
theorem c1_counterexample :
    sumFileSizes [("index.html", FSNode.file 10), ("assets", FSNode.dir []),
                  (".vuepress", FSNode.dir [("dist", FSNode.dir [])])] < 1024 ∧
    (Health.checkBuildOutput (rootWith (distHealthy 10))).exitCode = 0 ∧
    errorCount (Health.checkBuildOutput (rootWith (distHealthy 10))).output = 0 ∧
    Msg.warn "⚠️  Build output seems too small, might be incomplete"
      ∈ (Health.checkBuildOutput (rootWith (distHealthy 10))).output := by
  decide

/-- C1, amended: only the deploy-check verifier makes an undersized total
fatal — whenever the earlier checks pass and the output directory's immediate
regular-file sizes sum below the minimum, it prints the too-small diagnostic
and exits 1; the health-check script in the same situation exits 0 and only
warns. -/
theorem c1_amended :
    (∀ (env : Env) (root : FSNode) (pkg : Option PackageJson)
       (entries : List (String × FSNode)),
       (Deploy.checkRequiredFiles root).2.1 = false →
       (Deploy.checkDependencies pkg).2 = false →
       resolve root Deploy.buildOutput = some (FSNode.dir entries) →
       sumFileSizes entries < Deploy.minBuildSize →
       (Deploy.main env root pkg).exitCode = 1 ∧
         Msg.error ("❌ Build output too small: " ++ toString (sumFileSizes entries) ++ " bytes")
           ∈ (Deploy.main env root pkg).output) ∧
    (∀ (root : FSNode) (entries : List (String × FSNode)),
       resolve root Health.distPath = some (FSNode.dir entries) →
       (Health.checkEssentialAux root Health.essentialFiles).2 = false →
       sumFileSizes entries < 1024 →
       (Health.checkBuildOutput root).exitCode = 0 ∧
         Msg.warn "⚠️  Build output seems too small, might be incomplete"
           ∈ (Health.checkBuildOutput root).output) := by
  constructor
  · intro env root pkg entries hreq hdep hres hmin
    have hb := checkBuildOutput_eq_of_too_small root entries hres hmin
    have hm := main_eq_of_build_exit1 env root pkg hreq hdep (by rw [hb])
    refine ⟨by rw [hm], ?_⟩
    rw [hm]
    simp [hb]
  · intro root entries hres hess hsmall
    have hex : existsSync root Health.distPath = true := by simp [existsSync, hres]
    have hnil := healthEssentialAux_not_fatal_nil root Health.essentialFiles hess
    refine ⟨?_, ?_⟩ <;>
      simp [Health.checkBuildOutput, hex, hess, hres, hsmall, hnil]

/-- C1, witness: the deploy-check part of the amended claim at an empty
build-output directory. -/
theorem c1_amended_witness :
    (Deploy.main baseEnv (rootWith (FSNode.dir [])) (some goodPkg)).exitCode = 1 ∧
      Msg.error ("❌ Build output too small: "
          ++ toString (sumFileSizes ([] : List (String × FSNode))) ++ " bytes")
        ∈ (Deploy.main baseEnv (rootWith (FSNode.dir [])) (some goodPkg)).output :=
  c1_amended.1 baseEnv (rootWith (FSNode.dir [])) (some goodPkg) []
    rfl rfl rfl (by decide)

/-- C2, counterexample: an empty build-output directory is missing the
essential entry index.html, yet the deploy-check run never prints a
missing-essential-entry diagnostic naming it — the minimum-size check fires
first — so the claim's "reports a missing-essential-entry diagnostic ...
regardless of the directory's other contents" is false (the run does still
exit non-zero). -/
theorem c2_counterexample :
    existsSync (rootWith (FSNode.dir [])) (Deploy.buildOutput ++ ["index.html"]) = false ∧
    (Deploy.main baseEnv (rootWith (FSNode.dir [])) (some goodPkg)).exitCode = 1 ∧
    Msg.error "❌ Essential build file missing: index.html"
      ∉ (Deploy.main baseEnv (rootWith (FSNode.dir [])) (some goodPkg)).output := by
  decide

/-- C2, amended: a missing essential entry always forces a non-zero exit, and
the missing-entry diagnostic naming the entry is printed by the health-check
script unconditionally (essential entries are checked before sizes) and by
the deploy-check verifier whenever the minimum-size check passes; in an
undersized directory the deploy-check run exits 1 with the too-small
diagnostic instead. -/
theorem c2_amended :
    (∀ (root : FSNode) (f : String),
       existsSync root Health.distPath = true →
       Health.checkEssentialAux root Health.essentialFiles =
         ([Msg.error ("❌ Essential file missing: " ++ f)], true) →
       (Health.checkBuildOutput root).exitCode = 1 ∧
         Msg.error ("❌ Essential file missing: " ++ f)
           ∈ (Health.checkBuildOutput root).output) ∧
    (∀ (env : Env) (root : FSNode) (pkg : Option PackageJson) (f : String)
       (entries : List (String × FSNode)),
       (Deploy.checkRequiredFiles root).2.1 = false →
       (Deploy.checkDependencies pkg).2 = false →
       resolve root Deploy.buildOutput = some (FSNode.dir entries) →
       Deploy.checkEssentialAux root Deploy.essentialBuildFiles =
         ([Msg.error ("❌ Essential build file missing: " ++ f)], true) →
       (Deploy.main env root pkg).exitCode = 1 ∧
         (Deploy.minBuildSize ≤ sumFileSizes entries →
            Msg.error ("❌ Essential build file missing: " ++ f)
              ∈ (Deploy.main env root pkg).output)) := by
  constructor
  · intro root f hex hess
    refine ⟨?_, ?_⟩ <;> simp [Health.checkBuildOutput, hex, hess]
  · intro env root pkg f entries hreq hdep hres hess
    by_cases hmin : sumFileSizes entries < Deploy.minBuildSize
    · have hb := checkBuildOutput_eq_of_too_small root entries hres hmin
      have hm := main_eq_of_build_exit1 env root pkg hreq hdep (by rw [hb])
      exact ⟨by rw [hm], fun hge => absurd hmin (by omega)⟩
    · have hb := checkBuildOutput_eq_of_ess_fatal root entries hres hmin (by rw [hess])
      have hm := main_eq_of_build_exit1 env root pkg hreq hdep (by rw [hb])
      refine ⟨by rw [hm], fun _ => ?_⟩
      rw [hm]
      simp [hb, hess]

/-- C2, witness: the health-check part of the amended claim at a build-output
directory lacking the nested .vuepress/dist entry. -/
theorem c2_amended_witness :
    (Health.checkBuildOutput (rootWith distNoNested)).exitCode = 1 ∧
      Msg.error ("❌ Essential file missing: " ++ ".vuepress/dist/")
        ∈ (Health.checkBuildOutput (rootWith distNoNested)).output :=
  c2_amended.1 (rootWith distNoNested) ".vuepress/dist/" rfl rfl

/-- C3, counterexample: a build-output directory holding exactly one
immediate regular file (index.html, 2000 bytes ≥ minimum) with all essential
entries present and total far under the maximum; the health-check verifier
exits 0 but reports "Total files: 3" — the length of the raw directory
listing, directories included — and never reports a file count of 1. -/
theorem c3_counterexample :
    countFiles [("index.html", FSNode.file 2000), ("assets", FSNode.dir []),
                (".vuepress", FSNode.dir [("dist", FSNode.dir [])])] = 1 ∧
    (Health.checkBuildOutput (rootWith (distHealthy 2000))).exitCode = 0 ∧
    Msg.log "📁 Total files: 3" ∈ (Health.checkBuildOutput (rootWith (distHealthy 2000))).output ∧
    Msg.log "📁 Total files: 1" ∉ (Health.checkBuildOutput (rootWith (distHealthy 2000))).output := by
  decide

/-- C3, amended: for a build-output directory with exactly one immediate
regular file of N bytes (N within the thresholds) and all essential entries
present, the deploy-check verifier reports file count 1 and measured total N
and exits 0; the health-check script also exits 0 but reports as its file
count the number of all immediate entries, directories included. -/
theorem c3_amended (env : Env) (pkg : Option PackageJson) (root : FSNode)
    (entries pre post : List (String × FSNode)) (name : String) (N : Nat)
    (hreq : (Deploy.checkRequiredFiles root).2.1 = false)
    (hdep : (Deploy.checkDependencies pkg).2 = false)
    (hres : resolve root Deploy.buildOutput = some (FSNode.dir entries))
    (hone : entries = pre ++ (name, FSNode.file N) :: post)
    (hpre : countFiles pre = 0) (hpost : countFiles post = 0)
    (hmin : Deploy.minBuildSize ≤ N) (hmax : N ≤ Deploy.maxBuildSize)
    (hess : (Deploy.checkEssentialAux root Deploy.essentialBuildFiles).2 = false) :
    countFiles entries = 1 ∧ sumFileSizes entries = N ∧
    (Deploy.main env root pkg).exitCode = 0 ∧
    Msg.log ("   Files: " ++ toString (1 : Nat)) ∈ (Deploy.main env root pkg).output ∧
    Msg.log ("   Size: " ++ toFixed2MB N ++ " MB") ∈ (Deploy.main env root pkg).output ∧
    ((Health.checkEssentialAux root Health.essentialFiles).2 = false →
       (Health.checkBuildOutput root).exitCode = 0 ∧
         Msg.log ("📁 Total files: " ++ toString entries.length)
           ∈ (Health.checkBuildOutput root).output) := by
  have hcount : countFiles entries = 1 := by
    rw [hone, countFiles_append]
    simp [countFiles, hpre, hpost]
  have hsum : sumFileSizes entries = N := by
    rw [hone, sumFileSizes_append]
    simp [sumFileSizes, sumFileSizes_of_no_files pre hpre, sumFileSizes_of_no_files post hpost]
  have hminlt : ¬ sumFileSizes entries < Deploy.minBuildSize := by
    rw [hsum]; exact Nat.not_lt.mpr hmin
  have hmaxlt : ¬ Deploy.maxBuildSize < sumFileSizes entries := by
    rw [hsum]; exact Nat.not_lt.mpr hmax
  have hb := checkBuildOutput_eq_of_ok root entries hres hminlt hess
  have hm := main_eq_of_build_ok env root pkg hreq hdep (by rw [hb])
  refine ⟨hcount, hsum, by rw [hm], ?_, ?_, ?_⟩
  · rw [hm]; simp [hb, hcount, hsum, hmaxlt]
  · rw [hm]; simp [hb, hsum, hmaxlt]
  · intro hessH
    have hres2 : resolve root Health.distPath = some (FSNode.dir entries) := hres
    have hex : existsSync root Health.distPath = true := by simp [existsSync, hres2]
    have hnil := healthEssentialAux_not_fatal_nil root Health.essentialFiles hessH
    refine ⟨?_, ?_⟩ <;> simp [Health.checkBuildOutput, hex, hessH, hres2, hnil]

/-- C3, witness: the amended claim at a healthy build-output directory with a
2000-byte index document. -/
theorem c3_amended_witness :
    countFiles [("index.html", FSNode.file 2000), ("assets", FSNode.dir []),
                (".vuepress", FSNode.dir [("dist", FSNode.dir [])])] = 1 ∧
    sumFileSizes [("index.html", FSNode.file 2000), ("assets", FSNode.dir []),
                  (".vuepress", FSNode.dir [("dist", FSNode.dir [])])] = 2000 ∧
    (Deploy.main baseEnv (rootWith (distHealthy 2000)) (some goodPkg)).exitCode = 0 ∧
    Msg.log ("   Files: " ++ toString (1 : Nat))
      ∈ (Deploy.main baseEnv (rootWith (distHealthy 2000)) (some goodPkg)).output ∧
    Msg.log ("   Size: " ++ toFixed2MB 2000 ++ " MB")
      ∈ (Deploy.main baseEnv (rootWith (distHealthy 2000)) (some goodPkg)).output ∧
    ((Health.checkEssentialAux (rootWith (distHealthy 2000)) Health.essentialFiles).2 = false →
       (Health.checkBuildOutput (rootWith (distHealthy 2000))).exitCode = 0 ∧
         Msg.log ("📁 Total files: " ++ toString
             ([("index.html", FSNode.file 2000), ("assets", FSNode.dir []),
               (".vuepress", FSNode.dir [("dist", FSNode.dir [])])] : List (String × FSNode)).length)
           ∈ (Health.checkBuildOutput (rootWith (distHealthy 2000))).output) :=
  c3_amended baseEnv (some goodPkg) (rootWith (distHealthy 2000))
    [("index.html", FSNode.file 2000), ("assets", FSNode.dir []),
     (".vuepress", FSNode.dir [("dist", FSNode.dir [])])]
    [] [("assets", FSNode.dir []), (".vuepress", FSNode.dir [("dist", FSNode.dir [])])]
    "index.html" 2000
    rfl rfl rfl rfl rfl rfl (by decide) (by decide) rfl

/-- C4: when every other check passes and the output directory's immediate
regular-file sizes sum above the 50MB maximum, the deploy-check verifier
prints the very-large warning, prints no fatal diagnostic at all, and exits
with status 0 — the maximum-size violation is never fatal. -/
theorem c4_maxSize_advisory (env : Env) (root : FSNode) (pkg : Option PackageJson)
    (entries : List (String × FSNode))
    (hreq : (Deploy.checkRequiredFiles root).2.1 = false)
    (hdep : (Deploy.checkDependencies pkg).2 = false)
    (hres : resolve root Deploy.buildOutput = some (FSNode.dir entries))
    (hmax : Deploy.maxBuildSize < sumFileSizes entries)
    (hess : (Deploy.checkEssentialAux root Deploy.essentialBuildFiles).2 = false) :
    (Deploy.main env root pkg).exitCode = 0 ∧
    Msg.warn ("⚠️  Build output very large: " ++ toFixed2MB (sumFileSizes entries) ++ " MB")
      ∈ (Deploy.main env root pkg).output ∧
    errorCount (Deploy.main env root pkg).output = 0 := by
  have hminlt : ¬ sumFileSizes entries < Deploy.minBuildSize := by
    unfold Deploy.maxBuildSize at hmax
    unfold Deploy.minBuildSize
    omega
  have hb := checkBuildOutput_eq_of_ok root entries hres hminlt hess
  have hm := main_eq_of_build_ok env root pkg hreq hdep (by rw [hb])
  have e1 := checkEnvironment_errorCount env
  have e2 := checkRequiredFiles_errorCount root
  have e3 := checkDependencies_errorCount pkg
  have e4 := checkBuildOutput_errorCount root
  rw [hreq] at e2
  rw [hdep] at e3
  have houtc : (Deploy.checkBuildOutput root).2 = Deploy.BuildOutcome.ok := by rw [hb]
  rw [houtc] at e4
  simp only [if_false, Bool.false_eq_true, reduceIte] at e2 e3 e4
  refine ⟨by rw [hm], ?_, ?_⟩
  · rw [hm]
    simp [hb, hmax]
  · rw [hm]
    simp only [errorCount, List.countP_append, List.countP_cons, List.countP_nil,
               Msg.isError] at e1 e2 e3 e4 ⊢
    simp [e1, e2, e3, e4]

/-- C4, witness: the maximum-size claim at a build-output directory holding a
60MB index document. -/
theorem c4_maxSize_advisory_witness :
    (Deploy.main baseEnv (rootWith distHuge) (some goodPkg)).exitCode = 0 ∧
    Msg.warn ("⚠️  Build output very large: "
        ++ toFixed2MB (sumFileSizes [("index.html", FSNode.file 60000000),
                                     ("assets", FSNode.dir [])]) ++ " MB")
      ∈ (Deploy.main baseEnv (rootWith distHuge) (some goodPkg)).output ∧
    errorCount (Deploy.main baseEnv (rootWith distHuge) (some goodPkg)).output = 0 :=
  c4_maxSize_advisory baseEnv (rootWith distHuge) (some goodPkg)
    [("index.html", FSNode.file 60000000), ("assets", FSNode.dir [])]
    rfl rfl rfl (by decide) rfl

/-- C5: when the required-files list splits as a prefix of existing files
followed by a first absent file, the deploy-check run exits 1, prints the
diagnostic naming that file, and the trace of existence checks is exactly the
prefix plus the absent file — no later file in the list is ever checked. -/
theorem c5_firstMissing_shortCircuit (env : Env) (root : FSNode) (pkg : Option PackageJson)
    (fs₁ : List FSPath) (f : FSPath) (fs₂ : List FSPath)
    (hsplit : Deploy.requiredFiles = fs₁ ++ f :: fs₂)
    (h₁ : ∀ g ∈ fs₁, existsSync root g = true)
    (h₂ : existsSync root f = false) :
    (Deploy.main env root pkg).exitCode = 1 ∧
    Msg.error ("❌ Required file missing: " ++ Deploy.pathStr f)
      ∈ (Deploy.main env root pkg).output ∧
    (Deploy.checkRequiredFiles root).2.2 = fs₁ ++ [f] := by
  have haux := checkRequiredFilesAux_firstMissing root fs₁ f fs₂ h₁ h₂
  rw [← hsplit] at haux
  have hreq : Deploy.checkRequiredFiles root =
      (Msg.log "📁 Checking required files..." ::
        (fs₁.map (fun g => Msg.log ("✅ Found: " ++ Deploy.pathStr g))
         ++ [Msg.error ("❌ Required file missing: " ++ Deploy.pathStr f)]),
       true, fs₁ ++ [f]) := by
    unfold Deploy.checkRequiredFiles
    rw [haux]
  have hm := main_eq_of_req_fatal env root pkg (by rw [hreq])
  refine ⟨by rw [hm], ?_, by rw [hreq]⟩
  rw [hm, hreq]
  simp

/-- C5, witness: the short-circuit claim at a tree whose docs/README.md (the
second required file) is absent. -/
theorem c5_firstMissing_shortCircuit_witness :
    (Deploy.main baseEnv rootNoReadme (some goodPkg)).exitCode = 1 ∧
    Msg.error ("❌ Required file missing: " ++ Deploy.pathStr ["docs", "README.md"])
      ∈ (Deploy.main baseEnv rootNoReadme (some goodPkg)).output ∧
    (Deploy.checkRequiredFiles rootNoReadme).2.2 =
      [["docs", ".vuepress", "config.js"]] ++ [["docs", "README.md"]] :=
  c5_firstMissing_shortCircuit baseEnv rootNoReadme (some goodPkg)
    [["docs", ".vuepress", "config.js"]] ["docs", "README.md"]
    [["package.json"], ["pnpm-lock.yaml"]]
    rfl (by decide) rfl

/-- C6, counterexample: two runs of the deploy-check verifier over the same
unchanged tree and package.json, differing only in the process's heap usage
reading, print different output (the "Memory usage" line) — the printed
output is not a function of the inspected tree alone. -/
theorem c6_counterexample :
    Deploy.main baseEnv (rootWith (distHealthy 2000)) (some goodPkg) ≠
      Deploy.main altEnv (rootWith (distHealthy 2000)) (some goodPkg) := by
  decide

/-- C6, amended: over an unchanged tree the exit code of the deploy-check
verifier is identical across invocations whatever the process environment,
and the health-check script (which reads nothing but the tree) is fully
deterministic; the deploy-check printed output, however, also depends on the
process's Node version and heap usage, which are not functions of the tree. -/
theorem c6_amended (env₁ env₂ : Env) (root : FSNode) (pkg : Option PackageJson) :
    (Deploy.main env₁ root pkg).exitCode = (Deploy.main env₂ root pkg).exitCode ∧
    Health.checkBuildOutput root = Health.checkBuildOutput root := by
  refine ⟨?_, rfl⟩
  unfold Deploy.main
  cases h1 : (Deploy.checkRequiredFiles root).2.1 with
  | true => simp [h1]
  | false =>
      cases h2 : (Deploy.checkDependencies pkg).2 with
      | true => simp [h1, h2]
      | false => cases h3 : (Deploy.checkBuildOutput root).2 <;> simp [h1, h2, h3]

/-- C7: the measured total is shallow — it equals the sum over immediate
entries of the file size for regular files and 0 for directories, and both
the total and the file count are unchanged by replacing the entire contents
of any immediate subdirectory (nested files are never counted). -/
theorem c7_shallow_measurement :
    (∀ entries : List (String × FSNode),
       sumFileSizes entries =
         (entries.map (fun e => match e.2 with
            | FSNode.file sz => sz
            | FSNode.dir _ => 0)).sum) ∧
    (∀ (pre post : List (String × FSNode)) (name : String)
       (sub sub2 : List (String × FSNode)),
       sumFileSizes (pre ++ (name, FSNode.dir sub) :: post) =
         sumFileSizes (pre ++ (name, FSNode.dir sub2) :: post) ∧
       countFiles (pre ++ (name, FSNode.dir sub) :: post) =
         countFiles (pre ++ (name, FSNode.dir sub2) :: post)) := by
  constructor
  · intro entries
    induction entries with
    | nil => rfl
    | cons e rest ih =>
        obtain ⟨n, node⟩ := e
        cases node <;> simp [sumFileSizes, ih]
  · intro pre post name sub sub2
    constructor <;> simp [sumFileSizes_append, countFiles_append, sumFileSizes, countFiles]

theorem main_exit_and_errors (env : Env) (root : FSNode) (pkg : Option PackageJson) :
    ((Deploy.main env root pkg).exitCode = 0 ∨ (Deploy.main env root pkg).exitCode = 1) ∧
    errorCount (Deploy.main env root pkg).output =
      (if (Deploy.main env root pkg).exitCode = 0 then 0 else 1) := by
  have e1 := checkEnvironment_errorCount env
  have e2 := checkRequiredFiles_errorCount root
  have e3 := checkDependencies_errorCount pkg
  have e4 := checkBuildOutput_errorCount root
  cases h1 : (Deploy.checkRequiredFiles root).2.1 with
  | true =>
      rw [h1, if_pos rfl] at e2
      rw [main_eq_of_req_fatal env root pkg h1]
      simp only [errorCount, List.countP_append, List.countP_cons, List.countP_nil,
                 Msg.isError] at e1 e2 ⊢
      simp [e1, e2]
  | false =>
      rw [h1] at e2
      simp only [Bool.false_eq_true, reduceIte] at e2
      cases h2 : (Deploy.checkDependencies pkg).2 with
      | true =>
          rw [h2, if_pos rfl] at e3
          rw [main_eq_of_dep_fatal env root pkg h1 h2]
          simp only [errorCount, List.countP_append, List.countP_cons, List.countP_nil,
                     Msg.isError] at e1 e2 e3 ⊢
          simp [e1, e2, e3]
      | false =>
          rw [h2] at e3
          simp only [Bool.false_eq_true, reduceIte] at e3
          cases h3 : (Deploy.checkBuildOutput root).2 with
          | ok =>
              rw [h3] at e4
              simp only [reduceCtorEq, reduceIte] at e4
              rw [main_eq_of_build_ok env root pkg h1 h2 h3]
              simp only [errorCount, List.countP_append, List.countP_cons, List.countP_nil,
                         Msg.isError] at e1 e2 e3 e4 ⊢
              simp [e1, e2, e3, e4]
          | exit1 =>
              rw [h3, if_pos rfl] at e4
              rw [main_eq_of_build_exit1 env root pkg h1 h2 h3]
              simp only [errorCount, List.countP_append, List.countP_cons, List.countP_nil,
                         Msg.isError] at e1 e2 e3 e4 ⊢
              simp [e1, e2, e3, e4]
          | thrown =>
              rw [h3] at e4
              simp only [reduceCtorEq, reduceIte] at e4
              rw [main_eq_of_build_thrown env root pkg h1 h2 h3]
              simp only [errorCount, List.countP_append, List.countP_cons, List.countP_nil,
                         Msg.isError] at e1 e2 e3 e4 ⊢
              simp [e1, e2, e3, e4]

/-- C8: every deploy-check run exits 0 or 1; a failing run prints exactly one
fatal diagnostic and a passing run prints none; and the run short-circuits at
the first fatal check — when checkRequiredFiles fails, the whole output is
exactly the sections up to and including it (checkDependencies and
checkBuildOutput are never evaluated), and likewise when checkDependencies
fails. -/
theorem c8_linear_short_circuit (env : Env) (root : FSNode) (pkg : Option PackageJson) :
    ((Deploy.main env root pkg).exitCode = 0 ∨ (Deploy.main env root pkg).exitCode = 1) ∧
    ((Deploy.main env root pkg).exitCode = 1 →
       errorCount (Deploy.main env root pkg).output = 1) ∧
    ((Deploy.main env root pkg).exitCode = 0 →
       errorCount (Deploy.main env root pkg).output = 0) ∧
    ((Deploy.checkRequiredFiles root).2.1 = true →
       (Deploy.main env root pkg).output =
         [Msg.log "🚀 Starting deployment checks...\n"] ++ Deploy.checkEnvironment env
           ++ [Msg.log ""] ++ (Deploy.checkRequiredFiles root).1) ∧
    ((Deploy.checkRequiredFiles root).2.1 = false → (Deploy.checkDependencies pkg).2 = true →
       (Deploy.main env root pkg).output =
         [Msg.log "🚀 Starting deployment checks...\n"] ++ Deploy.checkEnvironment env
           ++ [Msg.log ""] ++ (Deploy.checkRequiredFiles root).1
           ++ [Msg.log ""] ++ (Deploy.checkDependencies pkg).1) := by
  obtain ⟨hdisj, herr⟩ := main_exit_and_errors env root pkg
  refine ⟨hdisj, ?_, ?_, ?_, ?_⟩
  · intro h
    rw [h] at herr
    simpa using herr
  · intro h
    rw [h] at herr
    simpa using herr
  · intro h
    rw [main_eq_of_req_fatal env root pkg h]
  · intro h1 h2
    rw [main_eq_of_dep_fatal env root pkg h1 h2]

/-- C8, witness: the short-circuit claim instantiated at a tree whose second
required file is missing. -/
theorem c8_linear_short_circuit_witness :
    (Deploy.main baseEnv rootNoReadme (some goodPkg)).exitCode = 1 ∧
    errorCount (Deploy.main baseEnv rootNoReadme (some goodPkg)).output = 1 ∧
    (Deploy.main baseEnv rootNoReadme (some goodPkg)).output =
      [Msg.log "🚀 Starting deployment checks...\n"] ++ Deploy.checkEnvironment baseEnv
        ++ [Msg.log ""] ++ (Deploy.checkRequiredFiles rootNoReadme).1 := by
  have h := c8_linear_short_circuit baseEnv rootNoReadme (some goodPkg)
  exact ⟨by decide, h.2.1 (by decide), h.2.2.2.1 rfl⟩

/-- C9: the health-check script's essential-entry list contains
'.vuepress/dist/' joined under the output directory itself, so any output
directory that exists and carries index.html and an assets directory but no
nested .vuepress/dist directory makes the script print the missing-essential
diagnostic for '.vuepress/dist/' and exit 1. -/
theorem c9_nested_essential (root : FSNode)
    (hdist : existsSync root Health.distPath = true)
    (hidx : existsSyncSlash root (Health.distPath ++ ["index.html"]) false = true)
    (hassets : existsSyncSlash root (Health.distPath ++ ["assets"]) true = true)
    (hnested : existsSyncSlash root (Health.distPath ++ [".vuepress", "dist"]) true = false) :
    (Health.checkBuildOutput root).exitCode = 1 ∧
    Msg.error ("❌ Essential file missing: " ++ ".vuepress/dist/")
      ∈ (Health.checkBuildOutput root).output := by
  have hess : Health.checkEssentialAux root Health.essentialFiles =
      ([Msg.error ("❌ Essential file missing: " ++ ".vuepress/dist/")], true) := by
    simp [Health.checkEssentialAux, Health.essentialFiles, hidx, hassets, hnested]
  refine ⟨?_, ?_⟩ <;> simp [Health.checkBuildOutput, hdist, hess]

/-- C9, witness: the nested-essential claim at a build-output directory with
index.html and assets but no nested .vuepress/dist. -/
theorem c9_nested_essential_witness :
    (Health.checkBuildOutput (rootWith distNoNested)).exitCode = 1 ∧
    Msg.error ("❌ Essential file missing: " ++ ".vuepress/dist/")
      ∈ (Health.checkBuildOutput (rootWith distNoNested)).output :=
  c9_nested_essential (rootWith distNoNested) rfl rfl rfl rfl

/-- C10: the deploy-check dependency check consults only the devDependencies
key — a package.json whose devDependencies lacks one of the three required
names makes the run exit 1 with a missing-dependency diagnostic, and the
result of checkDependencies is entirely independent of the dependencies
key. -/
theorem c10_devDependencies_only (env : Env) (root : FSNode) (pj : PackageJson) (d : String)
    (hreq : (Deploy.checkRequiredFiles root).2.1 = false)
    (hd : d ∈ Deploy.requiredDeps)
    (hmiss : lookupDep (pj.devDependencies.getD []) d = none) :
    ((Deploy.main env root (some pj)).exitCode = 1 ∧
     ∃ d2, Msg.error ("❌ Required dependency missing: " ++ d2)
             ∈ (Deploy.main env root (some pj)).output) ∧
    (∀ deps2 : Option (List (String × String)),
       Deploy.checkDependencies (some ⟨pj.devDependencies, deps2⟩) =
         Deploy.checkDependencies (some pj)) := by
  have hmiss2 : depTruthy (lookupDep (pj.devDependencies.getD []) d) = false := by
    rw [hmiss]; rfl
  have haux := checkDependenciesAux_missing (pj.devDependencies.getD [])
    Deploy.requiredDeps d hd hmiss2
  have hdep : (Deploy.checkDependencies (some pj)).2 = true := by
    simp [Deploy.checkDependencies, haux.1]
  have hm := main_eq_of_dep_fatal env root (some pj) hreq hdep
  refine ⟨⟨by rw [hm], ?_⟩, fun deps2 => rfl⟩
  obtain ⟨d2, hmem⟩ := haux.2
  refine ⟨d2, ?_⟩
  rw [hm]
  simp [Deploy.checkDependencies, hmem]

/-- C10, witness: the devDependencies-only claim at a package.json that lists
vuepress under dependencies but has an empty devDependencies map. -/
theorem c10_devDependencies_only_witness :
    (Deploy.main baseEnv (rootWith (distHealthy 2000)) (some badPkg)).exitCode = 1 ∧
    Msg.error ("❌ Required dependency missing: " ++ "vuepress")
      ∈ (Deploy.main baseEnv (rootWith (distHealthy 2000)) (some badPkg)).output := by
  have h := (c10_devDependencies_only baseEnv (rootWith (distHealthy 2000)) badPkg "vuepress"
    rfl (by decide) rfl).1
  exact ⟨h.1, by decide⟩
